import Mathlib

/-!
Shallow embedding of the core data model of src/src/models/csf_models.py
from the nist-csf-2-mcp-server repository: the element identifier grammar,
the typed element constructors, the factory dispatch, the framework
aggregate with its lookup caches and queries, the integrity validation
pass, and the organizational overlay records RiskAssessment and
GapAnalysis.

Modelling conventions: raising an exception in Python is Except.error;
Optional results are Option; a Python dict is an association list with
Python dict update semantics (an existing key keeps its position and
receives the new value, a new key is appended at the end); the regular
expressions of the source are written out as explicit character list
patterns; Python float arithmetic on the small exact values involved is
modelled by rational arithmetic; string operations of the form
s.split(sep)[0] are modelled by a structural first token function.
-/

/-- The six CSF function codes, mirroring the Python enum CSFFunction. -/
inductive CSFFunction where
  | GOVERN | IDENTIFY | PROTECT | DETECT | RESPOND | RECOVER
deriving DecidableEq, Repr

/-- Python enum lookup by value, CSFFunction(code): succeeds exactly on the
six code strings, none models the ValueError raised otherwise. -/
def CSFFunction.fromValue (s : String) : Option CSFFunction :=
  if s = "GV" then some .GOVERN
  else if s = "ID" then some .IDENTIFY
  else if s = "PR" then some .PROTECT
  else if s = "DE" then some .DETECT
  else if s = "RS" then some .RESPOND
  else if s = "RC" then some .RECOVER
  else none

/-- The six element kinds, mirroring the Python enum ElementType. -/
inductive ElementType where
  | function | category | subcategory | implementation_example | party | withdraw_reason
deriving DecidableEq, Repr

/-- Python enum lookup by value, ElementType(tag): succeeds exactly on the
six recognized kind strings, none models the ValueError raised otherwise. -/
def ElementType.fromValue (s : String) : Option ElementType :=
  if s = "function" then some .function
  else if s = "category" then some .category
  else if s = "subcategory" then some .subcategory
  else if s = "implementation_example" then some .implementation_example
  else if s = "party" then some .party
  else if s = "withdraw_reason" then some .withdraw_reason
  else none

/-- Characters matched by the regex class [A-Z]. -/
def isUpperAZ (c : Char) : Bool := 'A' ≤ c && c ≤ 'Z'

/-- Characters matched by the regex class [0-9], written d in the source. -/
def isDigit09 (c : Char) : Bool := '0' ≤ c && c ≤ '9'

/-- Full match of the anchored regex of two uppercase letters used for
FUNCTION identifiers. -/
def matchFunctionId (s : String) : Bool :=
  match s.data with
  | [a, b] => isUpperAZ a && isUpperAZ b
  | _ => false

/-- Full match of the anchored regex XX.YY used for CATEGORY identifiers:
two uppercase letters, a dot, two uppercase letters. -/
def matchCategoryId (s : String) : Bool :=
  match s.data with
  | [a, b, '.', c, d] => isUpperAZ a && isUpperAZ b && isUpperAZ c && isUpperAZ d
  | _ => false

/-- Full match of the anchored regex XX.YY-NN used for SUBCATEGORY
identifiers: the category shape, a hyphen, two digits. -/
def matchSubcategoryId (s : String) : Bool :=
  match s.data with
  | [a, b, '.', c, d, '-', n1, n2] =>
      isUpperAZ a && isUpperAZ b && isUpperAZ c && isUpperAZ d && isDigit09 n1 && isDigit09 n2
  | _ => false

/-- The characters of s strictly before the first occurrence of sep. -/
def charsBefore : List Char → Char → List Char
  | [], _ => []
  | c :: cs, sep => if c == sep then [] else c :: charsBefore cs sep

/-- Python s.split(sep)[0]: the substring before the first occurrence of
sep, or all of s when sep does not occur. -/
def firstToken (s : String) (sep : Char) : String := String.mk (charsBefore s.data sep)

/-- Python (sep in s) membership test on strings, for a one character sep. -/
def strContains (s : String) (c : Char) : Bool := s.data.any (fun x => x == c)

/-- Python s.startswith(p). -/
def strStarts (s p : String) : Bool := p.data.isPrefixOf s.data

/-- The model validator validate_identifier_format of BaseCSFElement: an
empty identifier is rejected for every kind; FUNCTION, CATEGORY and
SUBCATEGORY identifiers must match their anchored regexes; the
IMPLEMENTATION_EXAMPLE branch of the source always passes (its failed
regex test executes pass), and PARTY and WITHDRAW_REASON have no branch,
so all three accept any non empty identifier here. -/
def validate_identifier_format (element_type : ElementType) (v : String) : Bool :=
  if v = "" then false
  else if element_type = ElementType.function then matchFunctionId v
  else if element_type = ElementType.category then matchCategoryId v
  else if element_type = ElementType.subcategory then matchSubcategoryId v
  else true

/-- The common field set of every constructed CSF element, mirroring
BaseCSFElement. -/
structure BaseCSFElement where
  doc_identifier : String
  element_identifier : String
  element_type : ElementType
  text : String := ""
  title : String := ""
deriving DecidableEq, Repr

/-- BaseCSFElement.get_function: for a FUNCTION element the identifier is
passed to the CSFFunction enum constructor directly, and an identifier
outside the six codes raises ValueError, modelled as Except.error; for any
other element the token before the first dot is parsed, a failed parse is
caught and becomes none; an identifier without a dot yields none. -/
def BaseCSFElement.get_function (e : BaseCSFElement) : Except String (Option CSFFunction) :=
  if e.element_type = ElementType.function then
    match CSFFunction.fromValue e.element_identifier with
    | some f => Except.ok (some f)
    | none => Except.error ("Invalid CSF Function: " ++ e.element_identifier)
  else if strContains e.element_identifier '.' then
    Except.ok (CSFFunction.fromValue (firstToken e.element_identifier '.'))
  else
    Except.ok none

/-- A raw input record as consumed by the factory and the element
constructors: the field set of the Python keyword dictionary, with
element_type as the optional raw tag string returned by data.get. -/
structure RawElement where
  doc_identifier : String := ""
  element_identifier : String := ""
  element_type : Option String := none
  text : String := ""
  title : String := ""
deriving DecidableEq, Repr

/-- Construction of a plain BaseCSFElement from a raw record: the
element_type field must be present and be one of the six recognized kind
values (the pydantic enum field validation), then the model validator
validate_identifier_format runs. -/
def mkBaseCSFElement (data : RawElement) : Except String BaseCSFElement :=
  match data.element_type with
  | none => Except.error "Field required: element_type"
  | some s =>
    match ElementType.fromValue s with
    | none => Except.error ("Input should be a valid ElementType: " ++ s)
    | some et =>
      if validate_identifier_format et data.element_identifier then
        Except.ok { doc_identifier := data.doc_identifier,
                    element_identifier := data.element_identifier,
                    element_type := et,
                    text := data.text, title := data.title }
      else
        Except.error ("Invalid identifier for element type: " ++ data.element_identifier)

/-- Construction of CSFFunctionElement: the Literal typed element_type
field accepts only the FUNCTION tag or its absence, the field validator
validate_function_id requires one of the six function codes, then the
inherited model validator runs. -/
def mkCSFFunctionElement (data : RawElement) : Except String BaseCSFElement :=
  if ¬ (data.element_type = none ∨ data.element_type = some "function") then
    Except.error "element_type must be ElementType.FUNCTION"
  else if ¬ (data.element_identifier ∈ ["GV", "ID", "PR", "DE", "RS", "RC"]) then
    Except.error ("Invalid function identifier: " ++ data.element_identifier)
  else if validate_identifier_format ElementType.function data.element_identifier then
    Except.ok { doc_identifier := data.doc_identifier,
                element_identifier := data.element_identifier,
                element_type := ElementType.function,
                text := data.text, title := data.title }
  else
    Except.error ("Function identifier must be 2 uppercase letters: " ++ data.element_identifier)

/-- Construction of CSFCategory: the Literal typed element_type field plus
the inherited model validator. -/
def mkCSFCategory (data : RawElement) : Except String BaseCSFElement :=
  if ¬ (data.element_type = none ∨ data.element_type = some "category") then
    Except.error "element_type must be ElementType.CATEGORY"
  else if validate_identifier_format ElementType.category data.element_identifier then
    Except.ok { doc_identifier := data.doc_identifier,
                element_identifier := data.element_identifier,
                element_type := ElementType.category,
                text := data.text, title := data.title }
  else
    Except.error ("Category identifier must follow XX.YY format: " ++ data.element_identifier)

/-- Construction of CSFSubcategory: the Literal typed element_type field
plus the inherited model validator. -/
def mkCSFSubcategory (data : RawElement) : Except String BaseCSFElement :=
  if ¬ (data.element_type = none ∨ data.element_type = some "subcategory") then
    Except.error "element_type must be ElementType.SUBCATEGORY"
  else if validate_identifier_format ElementType.subcategory data.element_identifier then
    Except.ok { doc_identifier := data.doc_identifier,
                element_identifier := data.element_identifier,
                element_type := ElementType.subcategory,
                text := data.text, title := data.title }
  else
    Except.error ("Subcategory identifier must follow XX.YY-NN format: " ++ data.element_identifier)

/-- Construction of CSFImplementationExample: the Literal typed
element_type field plus the inherited model validator, which is permissive
for this kind beyond non emptiness. -/
def mkCSFImplementationExample (data : RawElement) : Except String BaseCSFElement :=
  if ¬ (data.element_type = none ∨ data.element_type = some "implementation_example") then
    Except.error "element_type must be ElementType.IMPLEMENTATION_EXAMPLE"
  else if validate_identifier_format ElementType.implementation_example data.element_identifier then
    Except.ok { doc_identifier := data.doc_identifier,
                element_identifier := data.element_identifier,
                element_type := ElementType.implementation_example,
                text := data.text, title := data.title }
  else
    Except.error ("Invalid implementation example identifier: " ++ data.element_identifier)

/-- Construction of CSFParty: the Literal typed element_type field, the
field validator validate_party_id requiring first or third, then the
inherited model validator. -/
def mkCSFParty (data : RawElement) : Except String BaseCSFElement :=
  if ¬ (data.element_type = none ∨ data.element_type = some "party") then
    Except.error "element_type must be ElementType.PARTY"
  else if ¬ (data.element_identifier ∈ ["first", "third"]) then
    Except.error ("Party identifier must be first or third: " ++ data.element_identifier)
  else if validate_identifier_format ElementType.party data.element_identifier then
    Except.ok { doc_identifier := data.doc_identifier,
                element_identifier := data.element_identifier,
                element_type := ElementType.party,
                text := data.text, title := data.title }
  else
    Except.error ("Invalid party identifier: " ++ data.element_identifier)

/-- Construction of CSFWithdrawReason: the Literal typed element_type
field plus the inherited model validator, which only rules out empty
identifiers for this kind. -/
def mkCSFWithdrawReason (data : RawElement) : Except String BaseCSFElement :=
  if ¬ (data.element_type = none ∨ data.element_type = some "withdraw_reason") then
    Except.error "element_type must be ElementType.WITHDRAW_REASON"
  else if validate_identifier_format ElementType.withdraw_reason data.element_identifier then
    Except.ok { doc_identifier := data.doc_identifier,
                element_identifier := data.element_identifier,
                element_type := ElementType.withdraw_reason,
                text := data.text, title := data.title }
  else
    Except.error ("Invalid withdraw reason identifier: " ++ data.element_identifier)

/-- The factory create_element_from_dict: dispatch on the raw tag string
returned by data.get, with the final else branch falling back to the base
element constructor. -/
def create_element_from_dict (data : RawElement) : Except String BaseCSFElement :=
  if data.element_type = some "function" then mkCSFFunctionElement data
  else if data.element_type = some "category" then mkCSFCategory data
  else if data.element_type = some "subcategory" then mkCSFSubcategory data
  else if data.element_type = some "implementation_example" then mkCSFImplementationExample data
  else if data.element_type = some "party" then mkCSFParty data
  else if data.element_type = some "withdraw_reason" then mkCSFWithdrawReason data
  else mkBaseCSFElement data

/-- A constructed relationship record, mirroring CSFRelationship. -/
structure CSFRelationship where
  source_doc_identifier : String
  source_element_identifier : String
  dest_doc_identifier : String
  dest_element_identifier : String
  relationship_identifier : String
  provenance_doc_identifier : String
deriving DecidableEq, Repr

/-- A framework document record, mirroring CSFDocument. -/
structure CSFDocument where
  doc_identifier : String
  name : String
  version : String
  website : String
deriving DecidableEq, Repr

/-- The framework aggregate, mirroring the stored collections of
CSFFramework. -/
structure CSFFramework where
  documents : List CSFDocument := []
  elements : List BaseCSFElement := []
  relationships : List CSFRelationship := []
deriving DecidableEq, Repr

/-- The three lookup caches built by CSFFramework at construction time,
each a Python dict keyed by element identifier. -/
structure Caches where
  functions_cache : List (String × BaseCSFElement) := []
  categories_cache : List (String × BaseCSFElement) := []
  subcategories_cache : List (String × BaseCSFElement) := []
deriving DecidableEq, Repr

/-- Python dict assignment d[k] = v: an existing key keeps its position
and receives the new value, a fresh key is appended at the end. -/
def dictInsert (d : List (String × BaseCSFElement)) (k : String) (v : BaseCSFElement) :
    List (String × BaseCSFElement) :=
  if k ∈ d.map Prod.fst then
    d.map (fun p => if p.1 = k then (k, v) else p)
  else d ++ [(k, v)]

/-- One iteration of the element loop in CSFFramework build caches: the
element is filed under the cache of its kind, other kinds are skipped. -/
def cacheStep (c : Caches) (e : BaseCSFElement) : Caches :=
  if e.element_type = ElementType.function then
    { c with functions_cache := dictInsert c.functions_cache e.element_identifier e }
  else if e.element_type = ElementType.category then
    { c with categories_cache := dictInsert c.categories_cache e.element_identifier e }
  else if e.element_type = ElementType.subcategory then
    { c with subcategories_cache := dictInsert c.subcategories_cache e.element_identifier e }
  else c

/-- CSFFramework build caches: one pass over the element sequence in
order, starting from three empty dicts. -/
def build_caches (elements : List BaseCSFElement) : Caches :=
  elements.foldl cacheStep {}

/-- CSFFramework.get_subcategories_for_category: iterate the subcategory
cache in dict order keeping entries whose key starts with the category id
followed by a hyphen. -/
def CSFFramework.get_subcategories_for_category (fw : CSFFramework) (category_id : String) :
    List BaseCSFElement :=
  (((build_caches fw.elements).subcategories_cache).filter
    (fun p => strStarts p.1 (category_id ++ "-"))).map Prod.snd

/-- CSFFramework.get_element_by_id: linear scan over all elements for the
first one whose identifier matches. -/
def CSFFramework.get_element_by_id (fw : CSFFramework) (element_id : String) :
    Option BaseCSFElement :=
  fw.elements.find? (fun e => e.element_identifier == element_id)

/-- The per relationship body of the loop in get_related_elements: when
the queried id is the source the destination is resolved and emitted under
the forward tag, otherwise when it is the destination the source is
resolved and emitted under the reverse tag; unresolved references emit
nothing. The destination arm is an elif in the source, so it is reached
only when the source arm did not match. -/
def relatedEntry (fw : CSFFramework) (element_id : String) (rel : CSFRelationship) :
    List (String × BaseCSFElement) :=
  if rel.source_element_identifier = element_id then
    match fw.get_element_by_id rel.dest_element_identifier with
    | some dest_elem => [(rel.relationship_identifier, dest_elem)]
    | none => []
  else if rel.dest_element_identifier = element_id then
    match fw.get_element_by_id rel.source_element_identifier with
    | some source_elem => [("reverse_" ++ rel.relationship_identifier, source_elem)]
    | none => []
  else []

/-- CSFFramework.get_related_elements: the relationship sequence is
scanned in order, each relationship appending its entries. -/
def CSFFramework.get_related_elements (fw : CSFFramework) (element_id : String) :
    List (String × BaseCSFElement) :=
  fw.relationships.flatMap (relatedEntry fw element_id)

/-- The integrity findings returned by validate_framework_integrity, one
constructor per distinct error string format of the source. -/
inductive Finding where
  | duplicates (ids : List String)
  | invalidSource (id : String)
  | invalidDestination (id : String)
  | orphanSubcategory (subcategory_id : String) (category_id : String)
deriving DecidableEq, Repr

/-- Recognizer for the duplicate identifier finding. -/
def Finding.is_duplicates : Finding → Bool
  | .duplicates _ => true
  | _ => false

/-- Recognizer for the two relationship endpoint findings. -/
def Finding.is_relationship_error : Finding → Bool
  | .invalidSource _ => true
  | .invalidDestination _ => true
  | _ => false

/-- Recognizer for the orphaned subcategory finding. -/
def Finding.is_orphan : Finding → Bool
  | .orphanSubcategory _ _ => true
  | _ => false

/-- CSFFramework.validate_framework_integrity: first the duplicate
identifier check emitting at most one finding carrying the set of
duplicated identifiers, then per relationship the source and destination
membership checks against the full identifier set, then per cached
subcategory the parent category existence check. The Python set of
duplicates is modelled as the deduplicated duplicate list. -/
def validate_framework_integrity (fw : CSFFramework) : List Finding :=
  let element_ids := fw.elements.map (fun e => e.element_identifier)
  let duplicates := element_ids.filter (fun id => 1 < element_ids.count id)
  let dup_errors := if duplicates.isEmpty then [] else [Finding.duplicates duplicates.dedup]
  let rel_errors := fw.relationships.flatMap (fun rel =>
    (if rel.source_element_identifier ∈ element_ids then []
     else [Finding.invalidSource rel.source_element_identifier]) ++
    (if rel.dest_element_identifier ∈ element_ids then []
     else [Finding.invalidDestination rel.dest_element_identifier]))
  let caches := build_caches fw.elements
  let orphan_errors := caches.subcategories_cache.flatMap (fun p =>
    let parent_cat := firstToken p.2.element_identifier '-'
    if parent_cat ∈ caches.categories_cache.map Prod.fst then []
    else [Finding.orphanSubcategory p.2.element_identifier parent_cat])
  dup_errors ++ rel_errors ++ orphan_errors

/-- The risk assessment overlay record, mirroring RiskAssessment with its
numeric fields as exact rationals. -/
structure RiskAssessment where
  org_id : String
  element_id : String
  risk_level : String
  likelihood : Int
  impact : Int
  risk_score : ℚ
  mitigation_status : String
deriving DecidableEq, Repr

/-- Construction of RiskAssessment: the risk level enum check and the
range checks on likelihood and impact, then the after model validator
calculate_risk_score overwrites whatever risk score was supplied with
likelihood times impact over five. -/
def mkRiskAssessment (org_id element_id risk_level : String) (likelihood impact : Int)
    (risk_score : ℚ) (mitigation_status : String) : Except String RiskAssessment :=
  if ¬ (risk_level ∈ ["Low", "Medium", "High", "Critical"]) then
    Except.error ("Invalid risk level: " ++ risk_level)
  else if ¬ (1 ≤ likelihood ∧ likelihood ≤ 5) then
    Except.error "likelihood must be between 1 and 5"
  else if ¬ (1 ≤ impact ∧ impact ≤ 5) then
    Except.error "impact must be between 1 and 5"
  else
    Except.ok { org_id := org_id, element_id := element_id, risk_level := risk_level,
                likelihood := likelihood, impact := impact,
                risk_score := (likelihood * impact : ℚ) / 5,
                mitigation_status := mitigation_status }

/-- The gap analysis overlay record, mirroring GapAnalysis with its
numeric fields as exact rationals. -/
structure GapAnalysis where
  org_id : String
  category_id : String
  current_score : ℚ
  target_score : ℚ
  gap_score : ℚ
  priority : String
deriving DecidableEq, Repr

/-- Construction of GapAnalysis: the range checks on the two scores and
the priority enum check, then the after model validator calculate_gap
overwrites whatever gap score was supplied with target minus current. -/
def mkGapAnalysis (org_id category_id : String) (current_score target_score gap_score : ℚ)
    (priority : String) : Except String GapAnalysis :=
  if ¬ (0 ≤ current_score ∧ current_score ≤ 5) then
    Except.error "current_score must be between 0 and 5"
  else if ¬ (0 ≤ target_score ∧ target_score ≤ 5) then
    Except.error "target_score must be between 0 and 5"
  else if ¬ (priority ∈ ["Low", "Medium", "High", "Critical"]) then
    Except.error ("Invalid priority level: " ++ priority)
  else
    Except.ok { org_id := org_id, category_id := category_id,
                current_score := current_score, target_score := target_score,
                gap_score := target_score - current_score,
                priority := priority }

/-! Sanity facts and small helper lemmas. -/

lemma validate_identifier_format_empty (et : ElementType) :
    validate_identifier_format et "" = false := by
  simp [validate_identifier_format]

lemma mkBaseCSFElement_empty_id (data : RawElement) (h : data.element_identifier = "") :
    (mkBaseCSFElement data).isOk = false := by
  unfold mkBaseCSFElement
  cases data.element_type with
  | none => rfl
  | some s =>
    cases hfv : ElementType.fromValue s with
    | none => simp [hfv, Except.isOk, Except.toBool]
    | some et => simp [hfv, h, validate_identifier_format_empty, Except.isOk, Except.toBool]

lemma mkCSFFunctionElement_empty_id (data : RawElement) (h : data.element_identifier = "") :
    (mkCSFFunctionElement data).isOk = false := by
  unfold mkCSFFunctionElement
  split_ifs <;> simp_all [validate_identifier_format_empty, Except.isOk, Except.toBool]

lemma mkCSFCategory_empty_id (data : RawElement) (h : data.element_identifier = "") :
    (mkCSFCategory data).isOk = false := by
  unfold mkCSFCategory
  split_ifs <;> simp_all [validate_identifier_format_empty, Except.isOk, Except.toBool]

lemma mkCSFSubcategory_empty_id (data : RawElement) (h : data.element_identifier = "") :
    (mkCSFSubcategory data).isOk = false := by
  unfold mkCSFSubcategory
  split_ifs <;> simp_all [validate_identifier_format_empty, Except.isOk, Except.toBool]

lemma mkCSFImplementationExample_empty_id (data : RawElement)
    (h : data.element_identifier = "") :
    (mkCSFImplementationExample data).isOk = false := by
  unfold mkCSFImplementationExample
  split_ifs <;> simp_all [validate_identifier_format_empty, Except.isOk, Except.toBool]

lemma mkCSFParty_empty_id (data : RawElement) (h : data.element_identifier = "") :
    (mkCSFParty data).isOk = false := by
  unfold mkCSFParty
  split_ifs <;> simp_all [validate_identifier_format_empty, Except.isOk, Except.toBool]

lemma mkCSFWithdrawReason_empty_id (data : RawElement) (h : data.element_identifier = "") :
    (mkCSFWithdrawReason data).isOk = false := by
  unfold mkCSFWithdrawReason
  split_ifs <;> simp_all [validate_identifier_format_empty, Except.isOk, Except.toBool]

/-- C10: for every element kind, including WITHDRAW_REASON and
IMPLEMENTATION_EXAMPLE, constructing an element with an empty
element_identifier fails with a validation error: whatever tag the raw
record declares, the factory never returns a successfully constructed
element when the identifier is the empty string. -/
theorem C10_empty_identifier_always_rejected (data : RawElement)
    (h : data.element_identifier = "") :
    (create_element_from_dict data).isOk = false := by
  unfold create_element_from_dict
  split_ifs
  · exact mkCSFFunctionElement_empty_id data h
  · exact mkCSFCategory_empty_id data h
  · exact mkCSFSubcategory_empty_id data h
  · exact mkCSFImplementationExample_empty_id data h
  · exact mkCSFParty_empty_id data h
  · exact mkCSFWithdrawReason_empty_id data h
  · exact mkBaseCSFElement_empty_id data h

/-- Concrete raw record with a withdraw reason tag and an empty identifier. -/
def rawEmptyWithdraw : RawElement :=
  { doc_identifier := "CSF_2_0_0", element_identifier := "",
    element_type := some "withdraw_reason" }

theorem C10_witness :
    rawEmptyWithdraw.element_identifier = "" ∧
    (create_element_from_dict rawEmptyWithdraw).isOk = false :=
  ⟨rfl, C10_empty_identifier_always_rejected rawEmptyWithdraw rfl⟩

/-- C4: for every successfully constructed RiskAssessment, whatever risk
score value the caller supplies, the stored risk score equals likelihood
times impact divided by five, and the stored likelihood and impact are
the supplied ones. -/
theorem C4_risk_score_always_recomputed (org_id element_id risk_level : String)
    (likelihood impact : Int) (risk_score : ℚ) (mitigation_status : String)
    (r : RiskAssessment)
    (h : mkRiskAssessment org_id element_id risk_level likelihood impact risk_score
          mitigation_status = Except.ok r) :
    r.risk_score = (r.likelihood * r.impact : ℚ) / 5 ∧
    r.likelihood = likelihood ∧ r.impact = impact := by
  unfold mkRiskAssessment at h
  split_ifs at h <;>
    first
      | exact Except.noConfusion h
      | (injection h with h; subst h; exact ⟨rfl, rfl, rfl⟩)

/-- The record produced by the C4 witness construction. -/
def riskWitnessRecord : RiskAssessment :=
  { org_id := "ORG-001", element_id := "GV.OC-01", risk_level := "High",
    likelihood := 4, impact := 5,
    risk_score := (((4 : Int) : ℚ) * ((5 : Int) : ℚ)) / 5,
    mitigation_status := "In Progress" }

theorem C4_witness :
    mkRiskAssessment "ORG-001" "GV.OC-01" "High" 4 5 99 "In Progress" =
      Except.ok riskWitnessRecord ∧
    riskWitnessRecord.risk_score =
      (riskWitnessRecord.likelihood * riskWitnessRecord.impact : ℚ) / 5 ∧
    riskWitnessRecord.risk_score = 4 :=
  ⟨rfl,
   (C4_risk_score_always_recomputed "ORG-001" "GV.OC-01" "High" 4 5 99 "In Progress"
      riskWitnessRecord rfl).1,
   by norm_num [riskWitnessRecord]⟩

/-- C9: for every successfully constructed GapAnalysis, whatever gap score
value the caller supplies, the stored gap score equals target score minus
current score, and the stored scores are the supplied ones. -/
theorem C9_gap_score_always_recomputed (org_id category_id : String)
    (current_score target_score gap_score : ℚ) (priority : String) (g : GapAnalysis)
    (h : mkGapAnalysis org_id category_id current_score target_score gap_score priority =
          Except.ok g) :
    g.gap_score = g.target_score - g.current_score ∧
    g.current_score = current_score ∧ g.target_score = target_score := by
  unfold mkGapAnalysis at h
  split_ifs at h <;>
    first
      | exact Except.noConfusion h
      | (injection h with h; subst h; exact ⟨rfl, rfl, rfl⟩)

/-- The record produced by the C9 witness construction. -/
def gapWitnessRecord : GapAnalysis :=
  { org_id := "ORG-001", category_id := "GV.OC",
    current_score := 2.5, target_score := 4,
    gap_score := (4 : ℚ) - 2.5, priority := "High" }

theorem C9_witness :
    mkGapAnalysis "ORG-001" "GV.OC" 2.5 4 99 "High" = Except.ok gapWitnessRecord ∧
    gapWitnessRecord.gap_score = gapWitnessRecord.target_score - gapWitnessRecord.current_score ∧
    gapWitnessRecord.gap_score = 1.5 :=
  ⟨by norm_num [mkGapAnalysis, gapWitnessRecord],
   (C9_gap_score_always_recomputed "ORG-001" "GV.OC" 2.5 4 99 "High"
      gapWitnessRecord (by norm_num [mkGapAnalysis, gapWitnessRecord])).1,
   by norm_num [gapWitnessRecord]⟩

/-- Concrete raw record carrying an unrecognized kind tag. -/
def rawUnknownKind : RawElement :=
  { doc_identifier := "CSF_2_0_0", element_identifier := "GV.OC",
    element_type := some "control", text := "Organizational Context" }

/-- C2 counterexample: the claim states that a record with an unrecognized
kind string is constructed as a base element without failing; on the code
the fallback branch is taken but the base constructor rejects the
unrecognized element_type value, so construction fails. -/
theorem C2_counterexample :
    create_element_from_dict rawUnknownKind = mkBaseCSFElement rawUnknownKind ∧
    (create_element_from_dict rawUnknownKind).isOk = false := by
  constructor
  · rfl
  · rfl

/-- C2 amended: for every raw record whose declared kind string is not one
of the six recognized kind strings, the factory dispatch does route the
record to the base element constructor, but that constructor rejects the
unrecognized element_type value, so construction always fails for such
records. -/
theorem C2_unknown_kind_dispatch (data : RawElement) (s : String)
    (h1 : data.element_type = some s)
    (h2 : s ∉ ["function", "category", "subcategory", "implementation_example",
               "party", "withdraw_reason"]) :
    create_element_from_dict data = mkBaseCSFElement data ∧
    (create_element_from_dict data).isOk = false := by
  simp only [List.mem_cons, List.not_mem_nil, or_false, not_or] at h2
  obtain ⟨n1, n2, n3, n4, n5, n6⟩ := h2
  have hdisp : create_element_from_dict data = mkBaseCSFElement data := by
    unfold create_element_from_dict
    split_ifs with g1 g2 g3 g4 g5 g6 <;> simp_all
  refine ⟨hdisp, ?_⟩
  rw [hdisp]
  unfold mkBaseCSFElement
  rw [h1]
  have hfv : ElementType.fromValue s = none := by
    unfold ElementType.fromValue
    split_ifs <;> simp_all
  simp [hfv, Except.isOk, Except.toBool]

theorem C2_witness :
    rawUnknownKind.element_type = some "control" ∧
    create_element_from_dict rawUnknownKind = mkBaseCSFElement rawUnknownKind ∧
    (create_element_from_dict rawUnknownKind).isOk = false :=
  ⟨rfl,
   (C2_unknown_kind_dispatch rawUnknownKind "control" rfl (by decide)).1,
   (C2_unknown_kind_dispatch rawUnknownKind "control" rfl (by decide)).2⟩

/-- Concrete raw FUNCTION record whose identifier is two uppercase letters
but not one of the six recognized function codes. -/
def rawFunctionXX : RawElement :=
  { doc_identifier := "CSF_2_0_0", element_identifier := "XX",
    element_type := some "function", text := "Unknown function" }

/-- C3 counterexample: the claim states that any FUNCTION record whose
identifier is exactly two uppercase letters constructs successfully; the
identifier XX is two uppercase letters, yet the field validator
validate_function_id rejects it because it is not one of the six codes. -/
theorem C3_counterexample :
    matchFunctionId rawFunctionXX.element_identifier = true ∧
    (mkCSFFunctionElement rawFunctionXX).isOk = false := by
  constructor
  · rfl
  · rfl

/-- C3 amended: for every record of kind FUNCTION, construction of the
FUNCTION variant succeeds exactly when the element identifier is one of
the six recognized function codes GV, ID, PR, DE, RS, RC; two uppercase
letters alone are not sufficient. On success the element carries the
FUNCTION kind and the supplied identifier. -/
theorem C3_function_construction (data : RawElement)
    (h : data.element_type = some "function") :
    ((mkCSFFunctionElement data).isOk = true ↔
      data.element_identifier ∈ ["GV", "ID", "PR", "DE", "RS", "RC"]) ∧
    (∀ e, mkCSFFunctionElement data = Except.ok e →
      e.element_type = ElementType.function ∧
      e.element_identifier = data.element_identifier) := by
  constructor
  · constructor
    · intro hok
      unfold mkCSFFunctionElement at hok
      split_ifs at hok with g1 g2 g3 <;>
        first
          | exact g2
          | simpa using g2
          | exact absurd hok (by simp [Except.isOk, Except.toBool])
    · intro hmem
      have hA : data.element_type = none ∨ data.element_type = some "function" := Or.inr h
      have hmm := hmem
      simp only [List.mem_cons, List.not_mem_nil, or_false] at hmm
      have hmatch : matchFunctionId data.element_identifier = true := by
        rcases hmm with h1 | h1 | h1 | h1 | h1 | h1 <;> rw [h1] <;> rfl
      have hne : ¬ data.element_identifier = "" := by
        rcases hmm with h1 | h1 | h1 | h1 | h1 | h1 <;> rw [h1] <;> decide
      have hval : validate_identifier_format ElementType.function data.element_identifier = true := by
        simp [validate_identifier_format, hne, hmatch]
      unfold mkCSFFunctionElement
      rw [if_neg (not_not_intro hA), if_neg (not_not_intro hmem), if_pos hval]
      rfl
  · intro e he
    unfold mkCSFFunctionElement at he
    split_ifs at he <;>
      first
        | exact Except.noConfusion he
        | (injection he with he; subst he; exact ⟨rfl, rfl⟩)

/-- Concrete raw FUNCTION record carrying the GOVERN code. -/
def rawFunctionGV : RawElement :=
  { doc_identifier := "CSF_2_0_0", element_identifier := "GV",
    element_type := some "function", title := "GOVERN" }

theorem C3_witness :
    ((mkCSFFunctionElement rawFunctionGV).isOk = true ↔
      rawFunctionGV.element_identifier ∈ ["GV", "ID", "PR", "DE", "RS", "RC"]) ∧
    (mkCSFFunctionElement rawFunctionGV).isOk = true :=
  ⟨(C3_function_construction rawFunctionGV rfl).1,
   ((C3_function_construction rawFunctionGV rfl).1).mpr (by decide)⟩

/-- The GOVERN function element of the self loop counterexample. -/
def elemGV : BaseCSFElement :=
  { doc_identifier := "CSF_2_0_0", element_identifier := "GV",
    element_type := ElementType.function, title := "GOVERN" }

/-- A relationship whose source and destination are both the GV element. -/
def relSelfLoop : CSFRelationship :=
  { source_doc_identifier := "CSF_2_0_0", source_element_identifier := "GV",
    dest_doc_identifier := "CSF_2_0_0", dest_element_identifier := "GV",
    relationship_identifier := "related_to", provenance_doc_identifier := "CSF_2_0_0" }

/-- Framework holding one element and one self loop relationship on it. -/
def fwSelfLoop : CSFFramework :=
  { documents := [], elements := [elemGV], relationships := [relSelfLoop] }

/-- C1 counterexample: the claim states a self loop relationship whose
referenced element resolves yields two entries, one forward and one
reverse tagged; on the code the destination arm is an elif, so the query
returns exactly one forward tagged entry and no reverse tagged entry. -/
theorem C1_counterexample :
    fwSelfLoop.get_related_elements "GV" = [("related_to", elemGV)] ∧
    ("reverse_related_to", elemGV) ∉ fwSelfLoop.get_related_elements "GV" ∧
    (fwSelfLoop.get_related_elements "GV").length ≠ 2 := by
  refine ⟨by decide, by decide, by decide⟩

/-- C1 amended: in every framework, every self loop relationship on the
queried identifier whose referenced element resolves contributes exactly
one entry to the related elements query, tagged with the forward
relationship type; no reverse tagged second entry is produced for it. The
relationship list is split around the self loop occurrence, so the
surrounding relationships may be arbitrary. -/
theorem C1_selfloop_single_forward_entry (fw : CSFFramework) (element_id : String)
    (l1 l2 : List CSFRelationship) (rel : CSFRelationship) (e : BaseCSFElement)
    (hsplit : fw.relationships = l1 ++ rel :: l2)
    (hs : rel.source_element_identifier = element_id)
    (hd : rel.dest_element_identifier = element_id)
    (hres : fw.get_element_by_id element_id = some e) :
    relatedEntry fw element_id rel = [(rel.relationship_identifier, e)] ∧
    fw.get_related_elements element_id =
      l1.flatMap (relatedEntry fw element_id) ++
        (rel.relationship_identifier, e) :: l2.flatMap (relatedEntry fw element_id) := by
  have hentry : relatedEntry fw element_id rel = [(rel.relationship_identifier, e)] := by
    unfold relatedEntry
    rw [if_pos hs, hd, hres]
  refine ⟨hentry, ?_⟩
  unfold CSFFramework.get_related_elements
  rw [hsplit, List.flatMap_append, List.flatMap_cons, hentry]
  simp

/-- A category element resolving the ordinary relationship of the mixed
framework below. -/
def elemGVOCLoop : BaseCSFElement :=
  { doc_identifier := "CSF_2_0_0", element_identifier := "GV.OC",
    element_type := ElementType.category, title := "Organizational Context" }

/-- An ordinary, non self loop relationship from GV to GV.OC. -/
def relForwardGVOC : CSFRelationship :=
  { source_doc_identifier := "CSF_2_0_0", source_element_identifier := "GV",
    dest_doc_identifier := "CSF_2_0_0", dest_element_identifier := "GV.OC",
    relationship_identifier := "projection", provenance_doc_identifier := "CSF_2_0_0" }

/-- Mixed framework holding an ordinary relationship alongside the self
loop on GV. -/
def fwMixedLoop : CSFFramework :=
  { documents := [], elements := [elemGV, elemGVOCLoop],
    relationships := [relForwardGVOC, relSelfLoop] }

theorem C1_witness :
    (relatedEntry fwMixedLoop "GV" relSelfLoop = [("related_to", elemGV)] ∧
     fwMixedLoop.get_related_elements "GV" =
       [relForwardGVOC].flatMap (relatedEntry fwMixedLoop "GV") ++
         ("related_to", elemGV) :: ([] : List CSFRelationship).flatMap
           (relatedEntry fwMixedLoop "GV")) ∧
    fwMixedLoop.get_related_elements "GV" =
      [("projection", elemGVOCLoop), ("related_to", elemGV)] :=
  ⟨C1_selfloop_single_forward_entry fwMixedLoop "GV" [relForwardGVOC] [] relSelfLoop elemGV
     rfl rfl rfl (by decide), by decide⟩

/-- Raw record declaring the FUNCTION kind with a two uppercase letter
identifier outside the six codes; the base constructor accepts it. -/
def rawBaseFunctionXX : RawElement :=
  { doc_identifier := "CSF_2_0_0", element_identifier := "XX",
    element_type := some "function" }

/-- The base constructed element of kind FUNCTION with identifier XX. -/
def elemFunctionXX : BaseCSFElement :=
  { doc_identifier := "CSF_2_0_0", element_identifier := "XX",
    element_type := ElementType.function }

/-- C8 counterexample: the claim states the function query never raises
for any successfully constructed element; a base constructed element
tagged FUNCTION with the two uppercase letter identifier XX passes
construction, yet the query passes the identifier to the CSFFunction enum
constructor, which raises ValueError on XX. -/
theorem C8_counterexample :
    mkBaseCSFElement rawBaseFunctionXX = Except.ok elemFunctionXX ∧
    elemFunctionXX.get_function = Except.error ("Invalid CSF Function: " ++ "XX") ∧
    (elemFunctionXX.get_function).isOk = false := by
  refine ⟨rfl, rfl, by decide⟩

/-- C8 amended: the function query never raises for elements that are not
tagged FUNCTION, returning the parsed leading token as an optional value;
for a FUNCTION tagged element it succeeds exactly when the identifier is
one of the six recognized codes, raising otherwise, and every element
constructed through the FUNCTION variant satisfies that condition, so the
raise is reachable only through base construction. -/
theorem C8_get_function_raise_condition :
    (∀ e : BaseCSFElement, e.element_type ≠ ElementType.function →
      (e.get_function).isOk = true) ∧
    (∀ e : BaseCSFElement, e.element_type = ElementType.function →
      ((e.get_function).isOk = true ↔
        (CSFFunction.fromValue e.element_identifier).isSome = true)) ∧
    (∀ data e, mkCSFFunctionElement data = Except.ok e →
      (e.get_function).isOk = true) := by
  refine ⟨?_, ?_, ?_⟩
  · intro e h
    unfold BaseCSFElement.get_function
    rw [if_neg h]
    split <;> rfl
  · intro e h
    unfold BaseCSFElement.get_function
    rw [if_pos h]
    cases hfv : CSFFunction.fromValue e.element_identifier with
    | none => simp [Except.isOk, Except.toBool]
    | some f => simp [Except.isOk, Except.toBool]
  · intro data e he
    unfold mkCSFFunctionElement at he
    split_ifs at he with g1 g2 g3 <;>
      first
        | exact Except.noConfusion he
        | (injection he with he
           subst he
           simp only [List.mem_cons, List.not_mem_nil, or_false] at g2
           unfold BaseCSFElement.get_function
           rcases g2 with h1 | h1 | h1 | h1 | h1 | h1 <;> rw [h1] <;> rfl)

/-- A constructed category element used to instantiate the C8 theorem. -/
def elemCategoryGVOC : BaseCSFElement :=
  { doc_identifier := "CSF_2_0_0", element_identifier := "GV.OC",
    element_type := ElementType.category, title := "Organizational Context" }

theorem C8_witness :
    (elemCategoryGVOC.get_function).isOk = true ∧
    elemCategoryGVOC.get_function = Except.ok (some CSFFunction.GOVERN) :=
  ⟨C8_get_function_raise_condition.1 elemCategoryGVOC (by decide), rfl⟩

/-- The duplicate identifier part of the integrity findings. -/
def duplicateFindings (fw : CSFFramework) : List Finding :=
  let element_ids := fw.elements.map (fun e => e.element_identifier)
  let duplicates := element_ids.filter (fun id => 1 < element_ids.count id)
  if duplicates.isEmpty then [] else [Finding.duplicates duplicates.dedup]

/-- The relationship endpoint part of the integrity findings. -/
def relationshipFindings (fw : CSFFramework) : List Finding :=
  fw.relationships.flatMap (fun rel =>
    (if rel.source_element_identifier ∈ fw.elements.map (fun e => e.element_identifier) then []
     else [Finding.invalidSource rel.source_element_identifier]) ++
    (if rel.dest_element_identifier ∈ fw.elements.map (fun e => e.element_identifier) then []
     else [Finding.invalidDestination rel.dest_element_identifier]))

/-- The orphaned subcategory part of the integrity findings. -/
def orphanFindings (fw : CSFFramework) : List Finding :=
  (build_caches fw.elements).subcategories_cache.flatMap (fun p =>
    if firstToken p.2.element_identifier '-' ∈
        (build_caches fw.elements).categories_cache.map Prod.fst then []
    else [Finding.orphanSubcategory p.2.element_identifier
            (firstToken p.2.element_identifier '-')])

lemma validate_decomposition (fw : CSFFramework) :
    validate_framework_integrity fw =
      duplicateFindings fw ++ relationshipFindings fw ++ orphanFindings fw := rfl

lemma mem_duplicateFindings (fw : CSFFramework) (f : Finding)
    (hf : f ∈ duplicateFindings fw) :
    f.is_duplicates = true ∧ f.is_relationship_error = false ∧ f.is_orphan = false := by
  simp only [duplicateFindings] at hf
  split at hf
  · simp at hf
  · simp only [List.mem_singleton] at hf
    subst hf
    exact ⟨rfl, rfl, rfl⟩

lemma mem_relationshipFindings (fw : CSFFramework) (f : Finding)
    (hf : f ∈ relationshipFindings fw) :
    f.is_relationship_error = true ∧ f.is_duplicates = false ∧ f.is_orphan = false := by
  unfold relationshipFindings at hf
  obtain ⟨rel, _, hmem⟩ := List.mem_flatMap.mp hf
  rcases List.mem_append.mp hmem with hm | hm <;>
    (split at hm
     · simp at hm
     · simp only [List.mem_singleton] at hm
       subst hm
       exact ⟨rfl, rfl, rfl⟩)

lemma mem_orphanFindings (fw : CSFFramework) (f : Finding)
    (hf : f ∈ orphanFindings fw) :
    f.is_orphan = true ∧ f.is_duplicates = false ∧ f.is_relationship_error = false := by
  unfold orphanFindings at hf
  obtain ⟨p, _, hmem⟩ := List.mem_flatMap.mp hf
  split at hmem
  · simp at hmem
  · simp only [List.mem_singleton] at hmem
    subst hmem
    exact ⟨rfl, rfl, rfl⟩

lemma filter_is_relationship_error (fw : CSFFramework) :
    (validate_framework_integrity fw).filter Finding.is_relationship_error =
      relationshipFindings fw := by
  rw [validate_decomposition, List.filter_append, List.filter_append]
  rw [List.filter_eq_nil_iff.mpr (fun f hf => by
        simp [(mem_duplicateFindings fw f hf).2.1])]
  rw [List.filter_eq_self.mpr (fun f hf => (mem_relationshipFindings fw f hf).1)]
  rw [List.filter_eq_nil_iff.mpr (fun f hf => by
        simp [(mem_orphanFindings fw f hf).2.2])]
  simp

lemma invalidSource_mem_validate (fw : CSFFramework) (rel : CSFRelationship)
    (hrel : rel ∈ fw.relationships)
    (hs : rel.source_element_identifier ∉ fw.elements.map (fun e => e.element_identifier)) :
    Finding.invalidSource rel.source_element_identifier ∈ validate_framework_integrity fw := by
  rw [validate_decomposition]
  refine List.mem_append.mpr (Or.inl (List.mem_append.mpr (Or.inr ?_)))
  unfold relationshipFindings
  refine List.mem_flatMap.mpr ⟨rel, hrel, ?_⟩
  rw [if_neg hs]
  simp

lemma invalidDestination_mem_validate (fw : CSFFramework) (rel : CSFRelationship)
    (hrel : rel ∈ fw.relationships)
    (hd : rel.dest_element_identifier ∉ fw.elements.map (fun e => e.element_identifier)) :
    Finding.invalidDestination rel.dest_element_identifier ∈
      validate_framework_integrity fw := by
  rw [validate_decomposition]
  refine List.mem_append.mpr (Or.inl (List.mem_append.mpr (Or.inr ?_)))
  unfold relationshipFindings
  refine List.mem_flatMap.mpr ⟨rel, hrel, ?_⟩
  rw [if_neg hd]
  simp

lemma orphan_mem_validate (fw : CSFFramework) (p : String × BaseCSFElement)
    (hp : p ∈ (build_caches fw.elements).subcategories_cache)
    (hcat : firstToken p.2.element_identifier '-' ∉
      (build_caches fw.elements).categories_cache.map Prod.fst) :
    Finding.orphanSubcategory p.2.element_identifier (firstToken p.2.element_identifier '-') ∈
      validate_framework_integrity fw := by
  rw [validate_decomposition]
  refine List.mem_append.mpr (Or.inr ?_)
  unfold orphanFindings
  refine List.mem_flatMap.mpr ⟨p, hp, ?_⟩
  rw [if_neg hcat]
  simp

/-- C6: for every framework and every relationship in it, the integrity
pass emits an invalid source finding exactly when the source identifier is
absent from the full identifier list, and independently an invalid
destination finding under the same condition on the destination
identifier; a relationship with both endpoints absent contributes both
findings. -/
theorem C6_relationship_endpoint_findings (fw : CSFFramework) :
    (validate_framework_integrity fw).filter Finding.is_relationship_error =
      fw.relationships.flatMap (fun rel =>
        (if rel.source_element_identifier ∈ fw.elements.map (fun e => e.element_identifier)
         then [] else [Finding.invalidSource rel.source_element_identifier]) ++
        (if rel.dest_element_identifier ∈ fw.elements.map (fun e => e.element_identifier)
         then [] else [Finding.invalidDestination rel.dest_element_identifier])) ∧
    (∀ rel ∈ fw.relationships,
      rel.source_element_identifier ∉ fw.elements.map (fun e => e.element_identifier) →
      rel.dest_element_identifier ∉ fw.elements.map (fun e => e.element_identifier) →
      Finding.invalidSource rel.source_element_identifier ∈ validate_framework_integrity fw ∧
      Finding.invalidDestination rel.dest_element_identifier ∈
        validate_framework_integrity fw) := by
  refine ⟨filter_is_relationship_error fw, ?_⟩
  intro rel hrel hs hd
  exact ⟨invalidSource_mem_validate fw rel hrel hs,
         invalidDestination_mem_validate fw rel hrel hd⟩

/-- Framework with a dangling relationship, used to instantiate C6. -/
def fwDangling : CSFFramework :=
  { documents := [], elements := [elemGV],
    relationships := [{ source_doc_identifier := "CSF_2_0_0",
                        source_element_identifier := "INVALID",
                        dest_doc_identifier := "CSF_2_0_0",
                        dest_element_identifier := "ALSO_INVALID",
                        relationship_identifier := "projection",
                        provenance_doc_identifier := "CSF_2_0_0" }] }

/-- The dangling relationship stored in fwDangling. -/
def relDangling : CSFRelationship :=
  { source_doc_identifier := "CSF_2_0_0", source_element_identifier := "INVALID",
    dest_doc_identifier := "CSF_2_0_0", dest_element_identifier := "ALSO_INVALID",
    relationship_identifier := "projection", provenance_doc_identifier := "CSF_2_0_0" }

theorem C6_witness :
    Finding.invalidSource "INVALID" ∈ validate_framework_integrity fwDangling ∧
    Finding.invalidDestination "ALSO_INVALID" ∈ validate_framework_integrity fwDangling :=
  (C6_relationship_endpoint_findings fwDangling).2 relDangling (by decide) (by decide) (by decide)

/-- C5: whenever some identifier occurs more than once in the element
sequence, the integrity pass emits exactly one duplicate identifier
finding, the carried list names precisely the identifiers occurring more
than once, and duplicate presence does not suppress the relationship
endpoint findings or the orphaned subcategory findings. -/
theorem C5_single_duplicate_finding (fw : CSFFramework)
    (h : ∃ id, 1 < (fw.elements.map (fun e => e.element_identifier)).count id) :
    ((validate_framework_integrity fw).filter Finding.is_duplicates).length = 1 ∧
    (∃ D, Finding.duplicates D ∈ validate_framework_integrity fw ∧
      ∀ id, (id ∈ D ↔ 1 < (fw.elements.map (fun e => e.element_identifier)).count id)) ∧
    (∀ rel ∈ fw.relationships,
      rel.source_element_identifier ∉ fw.elements.map (fun e => e.element_identifier) →
      Finding.invalidSource rel.source_element_identifier ∈ validate_framework_integrity fw) ∧
    (∀ rel ∈ fw.relationships,
      rel.dest_element_identifier ∉ fw.elements.map (fun e => e.element_identifier) →
      Finding.invalidDestination rel.dest_element_identifier ∈
        validate_framework_integrity fw) ∧
    (∀ p ∈ (build_caches fw.elements).subcategories_cache,
      firstToken p.2.element_identifier '-' ∉
        (build_caches fw.elements).categories_cache.map Prod.fst →
      Finding.orphanSubcategory p.2.element_identifier
          (firstToken p.2.element_identifier '-') ∈ validate_framework_integrity fw) := by
  obtain ⟨id0, hc⟩ := h
  have hm0 : id0 ∈ fw.elements.map (fun e => e.element_identifier) :=
    List.count_pos_iff.mp (by omega)
  have hmem0 : id0 ∈ (fw.elements.map (fun e => e.element_identifier)).filter
      (fun id => decide (1 < (fw.elements.map (fun e => e.element_identifier)).count id)) :=
    List.mem_filter.mpr ⟨hm0, decide_eq_true hc⟩
  have hemp : ¬ ((fw.elements.map (fun e => e.element_identifier)).filter
      (fun id => decide (1 < (fw.elements.map (fun e => e.element_identifier)).count id))).isEmpty
        = true := by
    intro habs
    rw [List.isEmpty_iff] at habs
    rw [habs] at hmem0
    exact List.not_mem_nil _ hmem0
  have hdup_eq : duplicateFindings fw =
      [Finding.duplicates (((fw.elements.map (fun e => e.element_identifier)).filter
        (fun id => decide (1 <
          (fw.elements.map (fun e => e.element_identifier)).count id))).dedup)] := by
    simp only [duplicateFindings]
    rw [if_neg hemp]
  have hfil_rel : (relationshipFindings fw).filter Finding.is_duplicates = [] :=
    List.filter_eq_nil_iff.mpr (fun f hf => by
      simp [(mem_relationshipFindings fw f hf).2.1])
  have hfil_orph : (orphanFindings fw).filter Finding.is_duplicates = [] :=
    List.filter_eq_nil_iff.mpr (fun f hf => by
      simp [(mem_orphanFindings fw f hf).2.1])
  refine ⟨?_, ⟨((fw.elements.map (fun e => e.element_identifier)).filter
      (fun id => decide (1 <
        (fw.elements.map (fun e => e.element_identifier)).count id))).dedup, ?_, ?_⟩,
      ?_, ?_, ?_⟩
  · rw [validate_decomposition, List.filter_append, List.filter_append, hdup_eq,
        hfil_rel, hfil_orph]
    simp [Finding.is_duplicates]
  · rw [validate_decomposition]
    exact List.mem_append.mpr (Or.inl (List.mem_append.mpr (Or.inl (by
      rw [hdup_eq]; exact List.mem_singleton_self _))))
  · intro id
    rw [List.mem_dedup, List.mem_filter]
    constructor
    · rintro ⟨-, hd⟩
      exact of_decide_eq_true hd
    · intro hlt
      exact ⟨List.count_pos_iff.mp (by omega), decide_eq_true hlt⟩
  · exact fun rel hrel hs => invalidSource_mem_validate fw rel hrel hs
  · exact fun rel hrel hd => invalidDestination_mem_validate fw rel hrel hd
  · exact fun p hp hcat => orphan_mem_validate fw p hp hcat

/-- A second GV function element sharing the identifier of elemGV. -/
def elemGVCopy : BaseCSFElement :=
  { doc_identifier := "CSF_2_0_0", element_identifier := "GV",
    element_type := ElementType.function, title := "GOVERN COPY" }

/-- Framework containing two elements sharing the identifier GV. -/
def fwDuplicateGV : CSFFramework :=
  { documents := [], elements := [elemGV, elemGVCopy], relationships := [] }

theorem C5_witness :
    ((validate_framework_integrity fwDuplicateGV).filter Finding.is_duplicates).length = 1 ∧
    validate_framework_integrity fwDuplicateGV = [Finding.duplicates ["GV"]] :=
  ⟨(C5_single_duplicate_finding fwDuplicateGV ⟨"GV", by decide⟩).1, by decide⟩

/-- The restriction of one cache building step to the subcategory cache. -/
def subcacheStep (d : List (String × BaseCSFElement)) (e : BaseCSFElement) :
    List (String × BaseCSFElement) :=
  if e.element_type = ElementType.subcategory then dictInsert d e.element_identifier e else d

lemma cacheStep_subcategories (c : Caches) (e : BaseCSFElement) :
    (cacheStep c e).subcategories_cache = subcacheStep c.subcategories_cache e := by
  unfold cacheStep subcacheStep
  split_ifs <;> simp_all

lemma foldl_cacheStep_subcategories (elems : List BaseCSFElement) (c : Caches) :
    (elems.foldl cacheStep c).subcategories_cache =
      elems.foldl subcacheStep c.subcategories_cache := by
  induction elems generalizing c with
  | nil => rfl
  | cons e t ih => simp only [List.foldl_cons, ih, cacheStep_subcategories]

lemma dictInsert_fresh (d : List (String × BaseCSFElement)) (k : String) (v : BaseCSFElement)
    (h : k ∉ d.map Prod.fst) : dictInsert d k v = d ++ [(k, v)] := by
  unfold dictInsert
  rw [if_neg h]

lemma foldl_subcacheStep_nodup (elems : List BaseCSFElement) :
    ∀ (d : List (String × BaseCSFElement)),
    (∀ e ∈ elems, e.element_type = ElementType.subcategory →
      e.element_identifier ∉ d.map Prod.fst) →
    ((elems.filter (fun e => e.element_type == ElementType.subcategory)).map
      (fun e => e.element_identifier)).Nodup →
    elems.foldl subcacheStep d =
      d ++ (elems.filter (fun e => e.element_type == ElementType.subcategory)).map
        (fun e => (e.element_identifier, e)) := by
  induction elems with
  | nil => intro d _ _; simp
  | cons e t ih =>
    intro d hd hnd
    by_cases he : e.element_type = ElementType.subcategory
    · have hfilter : (e :: t).filter (fun x => x.element_type == ElementType.subcategory) =
        e :: t.filter (fun x => x.element_type == ElementType.subcategory) := by
        simp [List.filter_cons, he]
      rw [hfilter] at hnd
      simp only [List.map_cons, List.nodup_cons] at hnd
      obtain ⟨hnotin, hnd'⟩ := hnd
      have hstep : subcacheStep d e = d ++ [(e.element_identifier, e)] := by
        unfold subcacheStep
        rw [if_pos he, dictInsert_fresh _ _ _ (hd e (by simp) he)]
      have hd' : ∀ e' ∈ t, e'.element_type = ElementType.subcategory →
          e'.element_identifier ∉ (d ++ [(e.element_identifier, e)]).map Prod.fst := by
        intro e' he' hty'
        rw [List.map_append, List.mem_append]
        rintro (hin | hin)
        · exact hd e' (by simp [he']) hty' hin
        · have hkey : e'.element_identifier ∈
              (t.filter (fun x => x.element_type == ElementType.subcategory)).map
                (fun x => x.element_identifier) :=
            List.mem_map.mpr ⟨e', List.mem_filter.mpr ⟨he', by simp [hty']⟩, rfl⟩
          simp only [List.map_cons, List.map_nil, List.mem_singleton] at hin
          rw [hin] at hkey
          exact hnotin hkey
      rw [List.foldl_cons, hstep, ih (d ++ [(e.element_identifier, e)]) hd' hnd', hfilter]
      simp [List.append_assoc]
    · have hfilter : (e :: t).filter (fun x => x.element_type == ElementType.subcategory) =
        t.filter (fun x => x.element_type == ElementType.subcategory) := by
        simp [List.filter_cons, he]
      rw [hfilter] at hnd
      have hstep : subcacheStep d e = d := by
        unfold subcacheStep
        rw [if_neg he]
      rw [List.foldl_cons, hstep,
          ih d (fun e' he' hty' => hd e' (by simp [he']) hty') hnd, hfilter]

lemma build_caches_subcategories (elems : List BaseCSFElement)
    (hnd : ((elems.filter (fun e => e.element_type == ElementType.subcategory)).map
      (fun e => e.element_identifier)).Nodup) :
    (build_caches elems).subcategories_cache =
      (elems.filter (fun e => e.element_type == ElementType.subcategory)).map
        (fun e => (e.element_identifier, e)) := by
  unfold build_caches
  rw [foldl_cacheStep_subcategories]
  have hinit : (({} : Caches)).subcategories_cache = [] := rfl
  rw [hinit, foldl_subcacheStep_nodup elems [] (by simp) hnd]
  simp

lemma filter_starts_map_pair (L : List BaseCSFElement) (pre : String) :
    ((L.map (fun e => (e.element_identifier, e))).filter
      (fun p => strStarts p.1 pre)).map Prod.snd =
    L.filter (fun e => strStarts e.element_identifier pre) := by
  induction L with
  | nil => rfl
  | cons e t ih =>
    simp only [List.map_cons, List.filter_cons]
    by_cases hp : strStarts e.element_identifier pre = true
    · simp [hp, ih]
    · simp [hp, ih]

/-- C7 amended: when the identifiers of the subcategory kind elements are
pairwise distinct, the aggregate answers the subcategories for category
query with exactly the subcategory elements whose identifier starts with
the category id followed by a hyphen, in element sequence order,
independent of interleaving with elements of other kinds. Distinctness is
necessary because the cache is keyed by identifier with last write wins. -/
theorem C7_subcategories_roundtrip (fw : CSFFramework) (category_id : String)
    (hnd : ((fw.elements.filter (fun e => e.element_type == ElementType.subcategory)).map
      (fun e => e.element_identifier)).Nodup) :
    fw.get_subcategories_for_category category_id =
      fw.elements.filter (fun e =>
        e.element_type == ElementType.subcategory &&
        strStarts e.element_identifier (category_id ++ "-")) := by
  unfold CSFFramework.get_subcategories_for_category
  rw [build_caches_subcategories fw.elements hnd, filter_starts_map_pair,
      List.filter_filter]
  exact List.filter_congr (by intro e he; simp [Bool.and_comm])

/-- First subcategory element with identifier GV.OC-01. -/
def subGVOC01A : BaseCSFElement :=
  { doc_identifier := "CSF_2_0_0", element_identifier := "GV.OC-01",
    element_type := ElementType.subcategory, text := "first copy" }

/-- Second subcategory element sharing the identifier GV.OC-01. -/
def subGVOC01B : BaseCSFElement :=
  { doc_identifier := "CSF_2_0_0", element_identifier := "GV.OC-01",
    element_type := ElementType.subcategory, text := "second copy" }

/-- Framework holding two subcategory elements with the same identifier. -/
def fwDupSubcats : CSFFramework :=
  { documents := [], elements := [subGVOC01A, subGVOC01B], relationships := [] }

/-- C7 counterexample: the claim as stated quantifies over every element
list; with two subcategory elements sharing one identifier and matching
the category, the query returns only the later element because the cache
is keyed by identifier, so it does not return exactly those M elements. -/
theorem C7_counterexample :
    (fwDupSubcats.elements.filter (fun e =>
      e.element_type == ElementType.subcategory &&
      strStarts e.element_identifier ("GV.OC" ++ "-"))).length = 2 ∧
    fwDupSubcats.get_subcategories_for_category "GV.OC" = [subGVOC01B] ∧
    subGVOC01A ∉ fwDupSubcats.get_subcategories_for_category "GV.OC" := by
  refine ⟨by decide, by decide, by decide⟩

/-- Mixed framework with distinct subcategory identifiers interleaved with
other kinds. -/
def funcGVMixed : BaseCSFElement :=
  { doc_identifier := "CSF_2_0_0", element_identifier := "GV",
    element_type := ElementType.function, title := "GOVERN" }

def subMixed01 : BaseCSFElement :=
  { doc_identifier := "CSF_2_0_0", element_identifier := "GV.OC-01",
    element_type := ElementType.subcategory, text := "mission" }

def catGVOCMixed : BaseCSFElement :=
  { doc_identifier := "CSF_2_0_0", element_identifier := "GV.OC",
    element_type := ElementType.category, title := "Organizational Context" }

def subMixed02 : BaseCSFElement :=
  { doc_identifier := "CSF_2_0_0", element_identifier := "GV.OC-02",
    element_type := ElementType.subcategory, text := "stakeholders" }

def subMixedOther : BaseCSFElement :=
  { doc_identifier := "CSF_2_0_0", element_identifier := "GV.RM-01",
    element_type := ElementType.subcategory, text := "risk management" }

def fwMixed : CSFFramework :=
  { documents := [],
    elements := [funcGVMixed, subMixed01, catGVOCMixed, subMixed02, subMixedOther],
    relationships := [] }

theorem C7_witness :
    fwMixed.get_subcategories_for_category "GV.OC" =
      fwMixed.elements.filter (fun e =>
        e.element_type == ElementType.subcategory &&
        strStarts e.element_identifier ("GV.OC" ++ "-")) ∧
    fwMixed.get_subcategories_for_category "GV.OC" = [subMixed01, subMixed02] :=
  ⟨C7_subcategories_roundtrip fwMixed "GV.OC" (by decide), by decide⟩
